import Mathlib

/-!
Shallow embedding of `pkg/bootstrap/docker/openshift/helper.go` (OpenShift
origin bootstrap helper) and proofs about its startup orchestration,
port-conflict checking, configuration patching and readiness polling.

External collaborators (Docker client, host helper, command runner, the
configuration codec, the HTTP client) are modelled as oracles supplied in
an environment record; the control flow, error classification, trace of
side effects (directories created/removed, commands invoked) and all
string parsing are translated directly from the Go source.
-/

namespace OriginBootstrap

/-! ## Go string primitives

Models of `strings.Fields`, `strings.Split` (single-character separator),
`strings.Contains` (single-character needle) and
`strconv.ParseInt(s, 16, 0)`, all structurally recursive over `List Char`.
-/

/-- Go's `unicode.IsSpace` (the White_Space property). -/
def isGoSpace (c : Char) : Bool :=
  c = ' ' || c = '\t' || c = '\n' || c = '\x0b' || c = '\x0c' || c = '\r' ||
  c = '\u0085' || c.toNat = 0x00A0 || c.toNat = 0x1680 ||
  (0x2000 ≤ c.toNat && c.toNat ≤ 0x200A) ||
  c.toNat = 0x2028 || c.toNat = 0x2029 || c.toNat = 0x202F ||
  c.toNat = 0x205F || c.toNat = 0x3000

/-- Accumulator-style worker for `goFields`; `cur` holds the current word
reversed. -/
def fieldsAux (cur : List Char) : List Char → List (List Char)
  | [] => if cur.isEmpty then [] else [cur.reverse]
  | c :: cs =>
    if isGoSpace c then
      if cur.isEmpty then fieldsAux [] cs
      else cur.reverse :: fieldsAux [] cs
    else fieldsAux (c :: cur) cs

/-- Model of Go `strings.Fields`: split around runs of white space. -/
def goFields (s : String) : List String :=
  (fieldsAux [] s.data).map (fun cs => String.mk cs)

/-- Worker for `goSplitChar` over the character list. -/
def splitCharList (sep : Char) : List Char → List (List Char)
  | [] => [[]]
  | c :: cs =>
    if c = sep then [] :: splitCharList sep cs
    else
      match splitCharList sep cs with
      | [] => [[c]]
      | r :: rs => (c :: r) :: rs

/-- Model of Go `strings.Split` with a one-character separator. -/
def goSplitChar (sep : Char) (s : String) : List String :=
  (splitCharList sep s.data).map (fun cs => String.mk cs)

/-- Model of Go `strings.Contains` with a one-character needle. -/
def goContainsChar (s : String) (c : Char) : Bool :=
  s.data.contains c

/-- Value of one hexadecimal digit, as accepted by `strconv.ParseInt` with
base 16. -/
def hexDigitVal (c : Char) : Option Nat :=
  let n := c.toNat
  if 48 ≤ n ∧ n ≤ 57 then some (n - 48)
  else if 97 ≤ n ∧ n ≤ 102 then some (n - 87)
  else if 65 ≤ n ∧ n ≤ 70 then some (n - 55)
  else none

/-- Fold a list of hexadecimal digits into a natural number; `none` on the
first non-digit. -/
def hexDigitsVal : List Char → Nat → Option Nat
  | [], acc => some acc
  | c :: cs, acc =>
    match hexDigitVal c with
    | some d => hexDigitsVal cs (16 * acc + d)
    | none => none

/-- Digits-and-range part of `strconv.ParseInt(s, 16, 0)`: `none` models a
non-nil `err` (empty digit string, bad digit, or value outside the 64-bit
signed range). -/
def hexMagnitude (neg : Bool) (ds : List Char) : Option Int :=
  if ds.isEmpty then none
  else
    match hexDigitsVal ds 0 with
    | none => none
    | some v =>
      if neg then (if v ≤ 2 ^ 63 then some (-(v : Int)) else none)
      else (if v < 2 ^ 63 then some ((v : Int)) else none)

/-- Model of Go `strconv.ParseInt(s, 16, 0)` (64-bit `int`): an optional
sign followed by a non-empty string of hexadecimal digits. -/
def goParseIntHex (s : String) : Option Int :=
  match s.data with
  | '+' :: ds => hexMagnitude false ds
  | '-' :: ds => hexMagnitude true ds
  | ds => hexMagnitude false ds

/-! ## Port conflict checking

`getUsedPorts` and `checkPortsInUse` from `helper.go`.  A Go panic
(index out of range on `parts[3]`) is modelled as `none`; `some` carries
the normally computed value.
-/

/-- The fixed required-port list `tcpPorts` from `helper.go`. -/
def tcpPorts : List Int := [53, 80, 443, 4001, 7001, 8443, 10250]

/-- One iteration of the line loop in `getUsedPorts`.  The source checks
`len(parts) < 2` and later reads `parts[3]`; reading `parts[3]` on a line
with fewer than 4 fields is the out-of-range access, modelled as `none`. -/
def usedPortsStep (acc : Option (List Int)) (line : String) : Option (List Int) :=
  match acc with
  | none => none
  | some ports =>
    let parts := goFields line
    if parts.length < 2 then some ports
    else if goContainsChar (parts.getD 0 "") ':' = false then some ports
    else
      let localAddress := goSplitChar ':' (parts.getD 1 "")
      if localAddress.length < 2 then some ports
      else
        match parts.get? 3 with
        | none => none
        | some state =>
          if state ≠ "0A" then some ports
          else
            match goParseIntHex (localAddress.getD 1 "") with
            | some port => some (ports ++ [port])
            | none => some ports

/-- Model of `getUsedPorts`: fold the line loop over `strings.Split(data, "\n")`.
The collected list is read up to membership (the source stores a set). -/
def getUsedPorts (data : String) : Option (List Int) :=
  List.foldl usedPortsStep (some []) (goSplitChar '\n' data)

/-- Model of `checkPortsInUse`: `some none` is a nil error, `some (some l)`
is the conflict error listing `l`, and `none` is a propagated panic. -/
def checkPortsInUse (data : String) (ports : List Int) : Option (Option (List Int)) :=
  match getUsedPorts data with
  | none => none
  | some used =>
    let conflicts := ports.filter (fun p => used.contains p)
    if conflicts.isEmpty then some none else some (some conflicts)

/-- The contribution of a single connection-table line to the used-port
set (`none` models the out-of-range fault on that line). -/
def lineContribution (line : String) : Option (List Int) :=
  usedPortsStep (some []) line

/-- A line parses as a listening ("0A") connection on port `p`: at least 2
fields, an address separator in the first field, a two-part local address,
state field (field 3) equal to "0A", and a port component that parses as
hexadecimal `p`. -/
def lineYields (line : String) (p : Int) : Bool :=
  let parts := goFields line
  let localAddress := goSplitChar ':' (parts.getD 1 "")
  decide (2 ≤ parts.length) && goContainsChar (parts.getD 0 "") ':' &&
  decide (2 ≤ localAddress.length) && (parts.get? 3 == some "0A") &&
  (goParseIntHex (localAddress.getD 1 "") == some p)

/-! ## Configuration patching (`updateConfig`)

The configuration codec (`configapilatest.ReadMasterConfig` /
`configapilatest.WriteYAML`) is an external collaborator assumed correct;
a master configuration is a record with the one mutated field (the routing
subdomain) explicit and all other fields carried opaquely.  A file either
holds a serialized configuration, malformed data, or is absent.
-/

/-- The parsed master configuration: the routing subdomain
(`cfg.RoutingConfig.Subdomain`) plus all remaining fields, opaque. -/
structure MasterConfig where
  routingSubdomain : String
  otherFields : List (String × String)
deriving DecidableEq

/-- Content of a configuration file on disk. -/
inductive FileContent where
  | absent
  | invalid (raw : String)
  | yaml (cfg : MasterConfig)
deriving DecidableEq

/-- The assumed-correct codec's parse side (`ReadMasterConfig`): succeeds
exactly on files holding a serialized configuration. -/
def readMasterConfig : FileContent → Option MasterConfig
  | .yaml cfg => some cfg
  | _ => none

/-- Error kinds of `updateConfig`, by failing collaborator call. -/
inductive UpdateErr where
  | readFailed
  | writeYamlFailed
  | writeFileFailed
  | copyToHostFailed
deriving DecidableEq

/-- Oracle for one `updateConfig` call: the current content of
`configDir/master/master-config.yaml` and the success of the three
fallible collaborator calls made after parsing. -/
structure UpdateEnv where
  fileContent : FileContent
  writeYamlOk : Bool
  writeFileOk : Bool
  copyToHostOk : Bool
deriving DecidableEq

/-- Model of `updateConfig`: read the master config, set
`cfg.RoutingConfig.Subdomain` to the helper's routing suffix when
non-empty and to `serverIP ++ ".xip.io"` otherwise, re-serialize, write
the file, copy it back to the host.  Returns the error (if any) and the
resulting content of the staged master configuration file. -/
def updateConfig (routingSuffix serverIP : String) (ue : UpdateEnv) :
    Option UpdateErr × FileContent :=
  match readMasterConfig ue.fileContent with
  | none => (some .readFailed, ue.fileContent)
  | some cfg =>
    let cfg' :=
      if routingSuffix.length > 0 then { cfg with routingSubdomain := routingSuffix }
      else { cfg with routingSubdomain := serverIP ++ ".xip.io" }
    if ue.writeYamlOk = false then (some .writeYamlFailed, ue.fileContent)
    else if ue.writeFileOk = false then (some .writeFileFailed, ue.fileContent)
    else if ue.copyToHostOk = false then (some .copyToHostFailed, .yaml cfg')
    else (none, .yaml cfg')

/-! ## The startup orchestrator (`Start`)

`Start` is embedded as a function of the helper's fields and an
environment of oracle answers for every external call, returning the
outcome (the Go `(string, error)` pair, or `hung` when the unbounded
readiness loop consumes every provided response without terminating)
together with a trace of the side effects the claims talk about:
directories created and removed, and the commands run.
-/

/-- The helper's relevant fields (collaborator handles are oracles). -/
structure Helper where
  publicHost : String
  image : String
  containerName : String
  routingSuffix : String
deriving DecidableEq

/-- `StartOptions` from `helper.go`. -/
structure StartOptions where
  serverIP : String
  useSharedVolume : Bool
  imageTag : String
  hostVolumesDir : String
  hostConfigDir : String
  hostDataDir : String
  useExistingConfig : Bool
  environment : List String
  logLevel : Int
deriving DecidableEq

/-- Oracle for one `copyConfig` call: the directory name `ioutil.TempDir`
returns (`none` when `TempDir` itself fails) and whether
`hostHelper.CopyFromHost` succeeds. -/
structure CopyEnv where
  tempDir : Option String
  copyOk : Bool
deriving DecidableEq

/-- Raw error of `copyConfig` (returned unwrapped to its caller). -/
inductive CopyErr where
  | tempDirFailed
  | copyFromHostFailed
deriving DecidableEq

/-- One privileged container invocation recorded in the trace. -/
structure RunInvocation where
  command : List String
  binds : List String
  env : List String
deriving DecidableEq

/-- Trace of the observable side effects of one `Start` attempt. -/
structure Trace where
  createdDirs : List String
  removedDirs : List String
  genRuns : List RunInvocation
  daemonRuns : List RunInvocation
deriving DecidableEq

def Trace.empty : Trace := ⟨[], [], [], []⟩

def Trace.app (a b : Trace) : Trace :=
  ⟨a.createdDirs ++ b.createdDirs, a.removedDirs ++ b.removedDirs,
   a.genRuns ++ b.genRuns, a.daemonRuns ++ b.daemonRuns⟩

/-- Record an `os.RemoveAll dir` in the trace. -/
def Trace.addRemoved (tr : Trace) (dir : String) : Trace :=
  { tr with removedDirs := tr.removedDirs ++ [dir] }

/-- Model of `copyConfig`: create a temp dir, copy the host configuration
tree into it; on copy failure remove the temp dir before returning. -/
def copyConfig (ce : CopyEnv) : (String × Option CopyErr) × Trace :=
  match ce.tempDir with
  | none => (("", some .tempDirFailed), Trace.empty)
  | some tempDir =>
    if ce.copyOk then ((tempDir, none), ⟨[tempDir], [], [], []⟩)
    else (("", some .copyFromHostFailed), ⟨[tempDir], [tempDir], [], []⟩)

/-- One `client.Get` answer in the readiness loop: either a transport
error or a response with status and (optionally readable) body. -/
inductive PollResponse where
  | transport (msg : String)
  | response (status : Nat) (body : Option String)
deriving DecidableEq

/-- The classified errors `Start` can return, one per `return` site. -/
inductive StartErr where
  | createConfigFailed
  | copyConfigFailed
  | updateConfigFailed (cause : UpdateErr)
  | configFilesFailed
  | daemonStartFailed
  | stateQueryFailed
  | failedToStart (containerName : String)
  | timedOutWaitingForStart (containerName : String)
  | httpClientFailed
  | readinessTransport (cause : Option String)
  | readinessNotReady (status : Nat) (body : String) (cause : Option String)
deriving DecidableEq

/-- Result of the readiness loop, counting requests made and sleeps taken. -/
inductive PollResult where
  | success (requests sleeps : Nat)
  | failure (e : StartErr) (requests sleeps : Nat)
  | exhausted (requests sleeps : Nat)
deriving DecidableEq

/-- The readiness loop of `Start`.  `errV` is the value of the enclosing
`err` variable when the loop is entered: the source builds the
transport-failure error with `WithCause(err)` (not `WithCause(ierr)`), so
that is the cause it attaches.  On the bad-status path `ierr` is nil, so
the not-ready error's cause is `none` and its body is the read response
body (empty when reading it failed). -/
def pollReadiness (errV : Option String) (requests sleeps : Nat) :
    List PollResponse → PollResult
  | [] => .exhausted requests sleeps
  | .transport _ :: _ => .failure (.readinessTransport errV) (requests + 1) sleeps
  | .response status body :: rest =>
    if status = 200 then .success (requests + 1) sleeps
    else if status = 503 || status = 403 then
      pollReadiness errV (requests + 1) (sleeps + 1) rest
    else .failure (.readinessNotReady status (body.getD "") none) (requests + 1) sleeps

/-- Environment of oracle answers for one `Start` attempt. -/
structure StartEnv where
  opt : StartOptions
  copies : List CopyEnv
  statOk : Bool
  createConfigOk : Bool
  update : UpdateEnv
  hostname : Option String
  daemonStartOk : Bool
  containerState : Option Bool
  dialOk : Bool
  httpClientOk : Bool
  responses : List PollResponse
deriving DecidableEq

/-- The container bind mounts assembled at the top of `Start` (the fixed
`openShiftContainerBinds` plus the volumes and config directories). -/
def startBinds (opt : StartOptions) : List String :=
  (if opt.useSharedVolume then
      ["/:/rootfs:ro", "/var/run:/var/run:rw", "/sys:/sys:ro",
       "/var/lib/docker:/var/lib/docker",
       opt.hostVolumesDir ++ ":" ++ opt.hostVolumesDir ++ ":shared"]
    else
      ["/:/rootfs:ro", "/var/run:/var/run:rw", "/sys:/sys:ro",
       "/var/lib/docker:/var/lib/docker",
       opt.hostVolumesDir ++ ":" ++ opt.hostVolumesDir]) ++
  [opt.hostConfigDir ++ ":/var/lib/origin/openshift.local.config:z"]

/-- The environment variables assembled at the top of `Start`. -/
def startEnvVars (opt : StartOptions) : List String :=
  (if opt.useSharedVolume then ["OPENSHIFT_CONTAINERIZED=false"] else []) ++
  opt.environment

/-- `createConfigCmd` as assembled in `Start`. -/
def createConfigCmd (h : Helper) (opt : StartOptions) : List String :=
  ["start",
   "--images=openshift/origin-${component}:" ++ opt.imageTag,
   "--master=" ++ opt.serverIP,
   "--volume-dir=" ++ opt.hostVolumesDir,
   "--dns=0.0.0.0:53",
   "--write-config=/var/lib/origin/openshift.local.config"] ++
  (if h.publicHost.length > 0 then
    ["--public-master=https://" ++ h.publicHost ++ ":8443"] else [])

/-- Bind mounts of the long-running daemon container (`startBinds` plus
the optional data directory for etcd). -/
def daemonBinds (opt : StartOptions) : List String :=
  startBinds opt ++
  (if opt.hostDataDir.length > 0 then
    [opt.hostDataDir ++ ":/var/lib/origin/openshift.local.etcd:z"] else [])

/-- The daemon's command line assembled in `Start`. -/
def daemonStartCmd (opt : StartOptions) (masterConfig nodeConfig : String) :
    List String :=
  ["start", "--master-config=" ++ masterConfig, "--node-config=" ++ nodeConfig] ++
  (if opt.logLevel > 0 then ["--loglevel=" ++ toString opt.logLevel] else [])

/-- Model of `getOpenShiftConfigFiles`: fails when querying the host's
hostname fails, otherwise returns the fixed in-container master path and
the hostname-keyed node path. -/
def getOpenShiftConfigFiles : Option String → Option (String × String)
  | none => none
  | some hostname =>
    some ("/var/lib/origin/openshift.local.config/master/master-config.yaml",
      "/var/lib/origin/openshift.local.config/node-" ++ hostname ++
        "/node-config.yaml")

/-- The Go return pair of `Start`, or `hung` when the readiness loop runs
past every provided response. -/
inductive Outcome where
  | exit (path : String) (err : Option StartErr)
  | hung
deriving DecidableEq

/-- The path component of an exit (`""` for `hung`). -/
def Outcome.path : Outcome → String
  | .exit p _ => p
  | .hung => ""

/-- The error component of an exit (`none` for `hung`). -/
def Outcome.err : Outcome → Option StartErr
  | .exit _ e => e
  | .hung => none

def Outcome.isExit : Outcome → Bool
  | .exit _ _ => true
  | .hung => false

instance : DecidableEq (Except StartErr String) := fun a b =>
  match a, b with
  | .error x, .error y => decidable_of_iff (x = y) (by simp)
  | .ok x, .ok y => decidable_of_iff (x = y) (by simp)
  | .error _, .ok _ => isFalse (by simp)
  | .ok _, .error _ => isFalse (by simp)

/-- The probe slot: the `CopyEnv` consumed by the optional
existing-config probe (the first `copyConfig` call when
`UseExistingConfig` is set). -/
def probeSlot (env : StartEnv) : CopyEnv :=
  env.copies.headD ⟨none, false⟩

/-- The `CopyEnv` consumed by the generation path's `copyConfig` call. -/
def copy2Slot (env : StartEnv) : CopyEnv :=
  (if env.opt.useExistingConfig then env.copies.tail else env.copies).headD
    ⟨none, false⟩

/-- The generation block is not skipped: either `UseExistingConfig` is
unset, or the probe's staging or master-config presence check failed. -/
def noSkip (env : StartEnv) : Bool :=
  !(env.opt.useExistingConfig && (probeSlot env).tempDir.isSome &&
    (probeSlot env).copyOk && env.statOk)

/-- The temp-directory names the environment can hand out. -/
def tempNames (env : StartEnv) : List String :=
  env.copies.filterMap (fun ce => ce.tempDir)

/-- Lines 176–192 of `Start`: the optional existing-config probe.
Returns `configDir` so far, the skip flag, the `CopyEnv` slots left for
later calls, and the trace. -/
def probePhase (env : StartEnv) : String × Bool × List CopyEnv × Trace :=
  if env.opt.useExistingConfig then
    match copyConfig (env.copies.headD ⟨none, false⟩) with
    | ((configDir, none), tr) => (configDir, env.statOk, env.copies.tail, tr)
    | ((_, some _), tr) => ("", false, env.copies.tail, tr)
  else ("", false, env.copies, Trace.empty)

/-- Lines 195–229 of `Start`: run the config-generation container,
re-stage the generated configuration, patch the routing subdomain; on a
patch failure run `cleanupConfig` (remove the staged directory). -/
def generationPhase (h : Helper) (env : StartEnv) (tr0 : Trace)
    (copiesLeft : List CopyEnv) : Except StartErr String × Trace :=
  let inv : RunInvocation :=
    ⟨createConfigCmd h env.opt, startBinds env.opt, startEnvVars env.opt⟩
  let tr1 : Trace := { tr0 with genRuns := tr0.genRuns ++ [inv] }
  if env.createConfigOk = false then (.error .createConfigFailed, tr1)
  else
    match copyConfig (copiesLeft.headD ⟨none, false⟩) with
    | ((_, some _), tr2) => (.error .copyConfigFailed, tr1.app tr2)
    | ((configDir, none), tr2) =>
      match updateConfig h.routingSuffix env.opt.serverIP env.update with
      | (some e, _) =>
        (.error (.updateConfigFailed e), (tr1.app tr2).addRemoved configDir)
      | (none, _) => (.ok configDir, tr1.app tr2)

/-- The config-resolution part of `Start` (probe, then generation unless
skipped), producing the staged `configDir` or the first classified
error. -/
def resolveConfigPhase (h : Helper) (env : StartEnv) :
    Except StartErr String × Trace :=
  match probePhase env with
  | (configDir, skip, copiesLeft, tr0) =>
    if skip then (.ok configDir, tr0)
    else generationPhase h env tr0 copiesLeft

/-- Lines 230–305 of `Start`: config file paths (with `cleanupConfig` on
failure), daemon launch, grace-period state check, TCP dial wait, TLS
client construction and the readiness loop. -/
def launchPhase (h : Helper) (env : StartEnv) (configDir : String)
    (tr : Trace) : Outcome × Trace :=
  match getOpenShiftConfigFiles env.hostname with
  | none => (.exit "" (some .configFilesFailed), tr.addRemoved configDir)
  | some (masterConfig, nodeConfig) =>
    let inv : RunInvocation :=
      ⟨daemonStartCmd env.opt masterConfig nodeConfig, daemonBinds env.opt,
       startEnvVars env.opt⟩
    let tr1 : Trace := { tr with daemonRuns := tr.daemonRuns ++ [inv] }
    if env.daemonStartOk = false then (.exit "" (some .daemonStartFailed), tr1)
    else
      match env.containerState with
      | none => (.exit "" (some .stateQueryFailed), tr1)
      | some false => (.exit "" (some (.failedToStart h.containerName)), tr1)
      | some true =>
        if env.dialOk = false then
          (.exit "" (some (.timedOutWaitingForStart h.containerName)), tr1)
        else if env.httpClientOk = false then
          (.exit "" (some .httpClientFailed), tr1)
        else
          match pollReadiness none 0 0 env.responses with
          | .success _ _ => (.exit configDir none, tr1)
          | .failure e _ _ => (.exit "" (some e), tr1)
          | .exhausted _ _ => (.hung, tr1)

/-- Model of `Helper.Start`. -/
def Start (h : Helper) (env : StartEnv) : Outcome × Trace :=
  match resolveConfigPhase h env with
  | (.error e, tr) => (.exit "" (some e), tr)
  | (.ok configDir, tr) => launchPhase h env configDir tr

/-- The staged directory `Start` resolved, when config resolution
succeeded. -/
def resolvedDir (h : Helper) (env : StartEnv) : Option String :=
  match (resolveConfigPhase h env).1 with
  | .ok configDir => some configDir
  | .error _ => none

/-! ## Concrete instances used by witnesses and counterexamples -/

/-- Connection-table text whose first line is a parseable listening
record on required port 53 and whose second line (2 fields, both holding
an address separator) makes `getUsedPorts` hit the out-of-range
`parts[3]` access. -/
def panicPortData : String := "0: 00000000:0035 00000000:0000 0A\nx: y:z"

/-- Witness data for the amended C4 theorem: a header line plus one
listening record on required port 80 (0x50). -/
def portScanData : String :=
  "sl local_address rem_address st\n0: 00000000:0050 00000000:0000 0A"

/-- Concrete oracle for the C7 witness: a parseable staged master file
and successful write-back calls. -/
def updateEnvW : UpdateEnv :=
  ⟨FileContent.yaml ⟨"orig.example.com", [("etcdDir", "/var/lib")]⟩,
   true, true, true⟩

/-- A concrete helper: no public host, image, container name `origin`,
no routing suffix override. -/
def hW : Helper := ⟨"", "openshift/origin:v1.3", "origin", ""⟩

/-- Concrete `StartOptions` with `UseExistingConfig` unset. -/
def optW : StartOptions :=
  ⟨"10.0.0.5", false, "v1.3", "/var/lib/origin/volumes",
   "/var/lib/origin/config", "", false, [], 0⟩

/-- Environment in which every stage succeeds: one staged directory, a
parseable master config, container running, dial and readiness succeed. -/
def envSuccess : StartEnv :=
  ⟨optW, [⟨some "/tmp/oc1", true⟩], false, true,
   ⟨FileContent.yaml ⟨"orig", []⟩, true, true, true⟩,
   some "node1", true, some true, true, true,
   [PollResponse.response 200 none]⟩

/-- Like `envSuccess` but the post-launch state query reports the
container not running. -/
def envFailedToStart : StartEnv :=
  ⟨optW, [⟨some "/tmp/oc1", true⟩], false, true,
   ⟨FileContent.yaml ⟨"orig", []⟩, true, true, true⟩,
   some "node1", true, some false, true, true, []⟩

/-- Environment for the C6 witness: `UseExistingConfig` set, the probe's
staging succeeds, and the staged copy contains the master config. -/
def envExisting : StartEnv :=
  ⟨⟨"10.0.0.5", false, "v1.3", "/var/lib/origin/volumes",
    "/var/lib/origin/config", "", true, [], 0⟩,
   [⟨some "/tmp/oc1", true⟩], true, true,
   ⟨FileContent.yaml ⟨"orig", []⟩, true, true, true⟩,
   some "node1", true, some true, true, true,
   [PollResponse.response 200 none]⟩

/-- Environment for the C10 witness: probe staging succeeds with
`/tmp/oc1` but the master config is absent there; generation then stages
`/tmp/oc2`. -/
def envAbandon : StartEnv :=
  ⟨⟨"10.0.0.5", false, "v1.3", "/var/lib/origin/volumes",
    "/var/lib/origin/config", "", true, [], 0⟩,
   [⟨some "/tmp/oc1", true⟩, ⟨some "/tmp/oc2", true⟩], false, true,
   ⟨FileContent.yaml ⟨"orig", []⟩, true, true, true⟩,
   some "node1", true, some true, true, true,
   [PollResponse.response 200 none]⟩

/-! ## Lemmas about the port scan -/

/-- Concatenation of the per-line contributions (faulting lines dropped). -/
def contributionsConcat : List String → List Int
  | [] => []
  | l :: ls => (lineContribution l).getD [] ++ contributionsConcat ls

theorem usedPortsStep_some (acc : List Int) (line : String) :
    usedPortsStep (some acc) line =
      (lineContribution line).map (fun l => acc ++ l) := by
  simp only [lineContribution, usedPortsStep]
  split
  · simp
  · split
    · simp
    · split
      · simp
      · split
        · simp
        · split
          · simp
          · split <;> simp

theorem foldl_usedPortsStep_none (lines : List String) :
    List.foldl usedPortsStep none lines = none := by
  induction lines with
  | nil => rfl
  | cons l ls ih => simpa [usedPortsStep] using ih

theorem foldl_usedPortsStep_some (lines : List String) (acc : List Int)
    (h : ∀ l ∈ lines, lineContribution l ≠ none) :
    List.foldl usedPortsStep (some acc) lines =
      some (acc ++ contributionsConcat lines) := by
  induction lines generalizing acc with
  | nil => simp [contributionsConcat]
  | cons l ls ih =>
    have hl : lineContribution l ≠ none := h l (by simp)
    obtain ⟨c, hc⟩ := Option.ne_none_iff_exists'.mp hl
    simp only [List.foldl_cons, usedPortsStep_some, hc, Option.map_some']
    rw [ih (acc ++ c) (fun l' hl' => h l' (List.mem_cons_of_mem l hl'))]
    simp [contributionsConcat, hc, List.append_assoc]

theorem mem_contributionsConcat (p : Int) (lines : List String) :
    p ∈ contributionsConcat lines ↔
      ∃ l ∈ lines, p ∈ (lineContribution l).getD [] := by
  induction lines with
  | nil => simp [contributionsConcat]
  | cons l ls ih =>
    simp only [contributionsConcat, List.mem_append, ih, List.mem_cons]
    constructor
    · rintro (hp | ⟨l1, hl1, hp⟩)
      · exact ⟨l, Or.inl rfl, hp⟩
      · exact ⟨l1, Or.inr hl1, hp⟩
    · rintro ⟨l1, hl1 | hl1, hp⟩
      · exact Or.inl (hl1 ▸ hp)
      · exact Or.inr ⟨l1, hl1, hp⟩

theorem mem_contribution_getD (line : String) (p : Int) :
    p ∈ (lineContribution line).getD [] ↔ lineContribution line = some [p] := by
  simp only [lineContribution, usedPortsStep]
  split
  · simp
  · split
    · simp
    · split
      · simp
      · split
        · simp
        · split
          · simp
          · split
            · simp [eq_comm]
            · simp

theorem lineContribution_eq_yields (line : String) (p : Int) :
    lineContribution line = some [p] ↔ lineYields line p = true := by
  simp only [lineContribution, usedPortsStep, lineYields]
  repeat' split <;> simp_all
  intro hc
  exact absurd hc (by rw [List.getElem?_eq_none (by omega)]; simp)

/-! ## Claim C4 and C5 theorems -/

/-- C4 (amended): for every connection-table text none of whose lines
triggers the out-of-range state-field access, `getUsedPorts` collects
exactly the ports of lines that parse with state code "0A" (lines with
any other state field never contribute), and `checkPortsInUse` returns
nil when no required port is collected and otherwise an error listing
exactly the required ports collected, in required-list order. -/
theorem checkPortsInUse_lists_listening_conflicts (data : String)
    (ports : List Int)
    (hno : ∀ line ∈ goSplitChar '\n' data, lineContribution line ≠ none) :
    ∃ used, getUsedPorts data = some used
      ∧ (∀ p, p ∈ used ↔ ∃ line ∈ goSplitChar '\n' data, lineYields line p = true)
      ∧ checkPortsInUse data ports =
          some (if (ports.filter (fun p => used.contains p)).isEmpty then none
                else some (ports.filter (fun p => used.contains p)))
      ∧ (∀ line ∈ goSplitChar '\n' data, ∀ st,
           (goFields line).get? 3 = some st → st ≠ "0A" →
           ∀ p, lineYields line p = false) := by
  have hg : getUsedPorts data = some (contributionsConcat (goSplitChar '\n' data)) := by
    simpa [getUsedPorts] using foldl_usedPortsStep_some (goSplitChar '\n' data) [] hno
  refine ⟨contributionsConcat (goSplitChar '\n' data), hg, ?_, ?_, ?_⟩
  · intro p
    rw [mem_contributionsConcat]
    constructor
    · rintro ⟨l, hl, hp⟩
      exact ⟨l, hl, (lineContribution_eq_yields l p).mp ((mem_contribution_getD l p).mp hp)⟩
    · rintro ⟨l, hl, hy⟩
      exact ⟨l, hl, (mem_contribution_getD l p).mpr ((lineContribution_eq_yields l p).mpr hy)⟩
  · simp only [checkPortsInUse, hg]
    split <;> rfl
  · intro l _ st hst hne p
    simp only [lineYields]
    rw [List.get?_eq_getElem?] at hst
    simp [hst, hne]

/-- C4 (counterexample to the claim as stated): the text contains a
parseable line with state "0A" whose port 53 is in the required set, yet
`checkPortsInUse` does not return a conflict error at all — it faults
(modelled `none`) on the following malformed line. -/
theorem checkPortsInUse_claim_counterexample :
    lineYields "0: 00000000:0035 00000000:0000 0A" 53 = true
    ∧ (53 : Int) ∈ tcpPorts
    ∧ checkPortsInUse panicPortData tcpPorts = none := by decide

/-- C4 witness: the amended theorem applied to `portScanData`. -/
theorem checkPortsInUse_lists_listening_conflicts_witness :
    (∀ line ∈ goSplitChar '\n' portScanData, lineContribution line ≠ none)
    ∧ ∃ used, getUsedPorts portScanData = some used
      ∧ (∀ p, p ∈ used ↔
          ∃ line ∈ goSplitChar '\n' portScanData, lineYields line p = true)
      ∧ checkPortsInUse portScanData tcpPorts =
          some (if (tcpPorts.filter (fun p => used.contains p)).isEmpty then none
                else some (tcpPorts.filter (fun p => used.contains p)))
      ∧ (∀ line ∈ goSplitChar '\n' portScanData, ∀ st,
           (goFields line).get? 3 = some st → st ≠ "0A" →
           ∀ p, lineYields line p = false) :=
  ⟨by decide,
   checkPortsInUse_lists_listening_conflicts portScanData tcpPorts (by decide)⟩

/-- C5 (refuted; the code faults): a line with only 3 whitespace-separated
fields, whose first field contains ":" and whose second field splits into
two parts on ":", drives `getUsedPorts` into the `parts[3]` access with
`len(parts) = 3` — an index-out-of-range panic (modelled `none`), not a
silent skip; the panic propagates through `checkPortsInUse`. -/
theorem getUsedPorts_faults_on_short_line :
    (goFields "0: 00000000:0050 X").length = 3
    ∧ getUsedPorts "0: 00000000:0050 X" = none
    ∧ checkPortsInUse "0: 00000000:0050 X" tcpPorts = none := by decide

/-! ## Claim C2 and C3 theorems (readiness loop) -/

/-- C2 (code bug): a transport-level error terminates the loop with no
retry, but the error carries as cause the enclosing `err` variable —
nil when the loop is entered — because the source writes `WithCause(err)`
instead of `WithCause(ierr)`; the iteration's transport error is lost.
A status outside {200, 503, 403} does terminate with the response body
attached. -/
theorem pollReadiness_transport_cause_lost :
    pollReadiness none 0 0 [PollResponse.transport "connection refused"]
      = PollResult.failure (StartErr.readinessTransport none) 1 0
    ∧ (∀ s : String,
        StartErr.readinessTransport none ≠ StartErr.readinessTransport (some s))
    ∧ pollReadiness none 0 0 [PollResponse.response 500 (some "diag body")]
      = PollResult.failure (StartErr.readinessNotReady 500 "diag body" none) 1 0 := by
  refine ⟨by decide, ?_, by decide⟩
  intro s h
  simp at h

/-- C3: on responses [503, 503, 200] the readiness poll makes exactly 3
requests, sleeping the fixed interval after each transient response, and
succeeds; on [403, 500] it makes exactly 2 requests, sleeps once after
the 403, and fails terminally with the body of the second response
attached. -/
theorem pollReadiness_sequences (b1 b2 b3 : Option String) (body2 : String) :
    pollReadiness none 0 0
        [PollResponse.response 503 b1, PollResponse.response 503 b2,
         PollResponse.response 200 b3] = PollResult.success 3 2
    ∧ pollReadiness none 0 0
        [PollResponse.response 403 b1, PollResponse.response 500 (some body2)]
      = PollResult.failure (StartErr.readinessNotReady 500 body2 none) 2 1 := by
  constructor <;> simp [pollReadiness]

/-! ## Claim C7 theorem (configuration round-trip) -/

/-- C7: when `updateConfig` succeeds on a staged master configuration
that parses as `cfg`, re-parsing the rewritten file yields a
configuration whose routing subdomain is the helper's routing suffix
when that is non-empty and `serverIP ++ ".xip.io"` otherwise, with all
other fields unchanged from `cfg`. -/
theorem updateConfig_roundtrip (routingSuffix serverIP : String)
    (ue : UpdateEnv) (cfg : MasterConfig) (fc : FileContent)
    (hread : readMasterConfig ue.fileContent = some cfg)
    (hok : updateConfig routingSuffix serverIP ue = (none, fc)) :
    ∃ cfg', readMasterConfig fc = some cfg'
      ∧ cfg'.routingSubdomain =
          (if routingSuffix.length > 0 then routingSuffix
           else serverIP ++ ".xip.io")
      ∧ cfg'.otherFields = cfg.otherFields := by
  simp only [updateConfig, hread] at hok
  split at hok
  · exact absurd hok (by simp)
  · split at hok
    · exact absurd hok (by simp)
    · split at hok
      · exact absurd hok (by simp)
      · obtain ⟨-, hfc⟩ := Prod.mk.injEq .. ▸ hok
        subst hfc
        split
        · exact ⟨_, rfl, by simp_all, rfl⟩
        · exact ⟨_, rfl, by simp_all, rfl⟩

/-- C7 witness: the round-trip theorem applied with an empty routing
suffix and server IP 10.0.0.5. -/
theorem updateConfig_roundtrip_witness :
    readMasterConfig updateEnvW.fileContent =
      some ⟨"orig.example.com", [("etcdDir", "/var/lib")]⟩
    ∧ updateConfig "" "10.0.0.5" updateEnvW =
        (none, FileContent.yaml ⟨"10.0.0.5.xip.io", [("etcdDir", "/var/lib")]⟩)
    ∧ ∃ cfg', readMasterConfig
          (FileContent.yaml ⟨"10.0.0.5.xip.io", [("etcdDir", "/var/lib")]⟩) =
          some cfg'
      ∧ cfg'.routingSubdomain =
          (if ("" : String).length > 0 then "" else "10.0.0.5" ++ ".xip.io")
      ∧ cfg'.otherFields = [("etcdDir", "/var/lib")] :=
  ⟨by decide, by decide,
   updateConfig_roundtrip "" "10.0.0.5" updateEnvW
     ⟨"orig.example.com", [("etcdDir", "/var/lib")]⟩ _ (by decide) (by decide)⟩

/-! ## Lemmas about the orchestration phases -/

theorem copyConfig_ok_inv (ce : CopyEnv) (dd : String) (tr : Trace)
    (h : copyConfig ce = ((dd, none), tr)) :
    ce.tempDir = some dd ∧ ce.copyOk = true ∧ tr = ⟨[dd], [], [], []⟩ := by
  unfold copyConfig at h
  split at h
  · simp at h
  · split at h
    · simp only [Prod.mk.injEq] at h
      obtain ⟨⟨rfl, -⟩, rfl⟩ := h
      simp_all
    · simp at h

theorem copyConfig_fail_inv (ce : CopyEnv) (s : String) (e : CopyErr) (tr : Trace)
    (h : copyConfig ce = ((s, some e), tr)) :
    s = "" ∧ (∀ x ∈ tr.removedDirs, ce.tempDir = some x)
    ∧ tr.genRuns = [] ∧ tr.daemonRuns = [] := by
  unfold copyConfig at h
  split at h
  · simp only [Prod.mk.injEq] at h
    obtain ⟨⟨rfl, -⟩, rfl⟩ := h
    simp [Trace.empty]
  · split at h
    · simp at h
    · simp only [Prod.mk.injEq] at h
      obtain ⟨⟨rfl, -⟩, rfl⟩ := h
      simp_all

theorem mem_tempNames_of_headD (l : List CopyEnv) (t : String)
    (h : (l.headD ⟨none, false⟩).tempDir = some t) :
    t ∈ l.filterMap (fun ce => ce.tempDir) := by
  cases l with
  | nil => simp at h
  | cons ce rest =>
    exact List.mem_filterMap.mpr ⟨ce, by simp, by simpa using h⟩

theorem mem_tempNames_of_tail_headD (l : List CopyEnv) (t : String)
    (h : (l.tail.headD ⟨none, false⟩).tempDir = some t) :
    t ∈ l.filterMap (fun ce => ce.tempDir) := by
  cases l with
  | nil => simp at h
  | cons ce rest =>
    simp only [List.tail_cons] at h
    have := mem_tempNames_of_headD rest t h
    simp only [List.filterMap_cons]
    cases hce : ce.tempDir <;> simp [this]

theorem tail_temp_ne_head_temp (l : List CopyEnv) (t1 t2 : String)
    (hnd : (l.filterMap (fun ce => ce.tempDir)).Nodup)
    (h1 : (l.headD ⟨none, false⟩).tempDir = some t1)
    (h2 : (l.tail.headD ⟨none, false⟩).tempDir = some t2) :
    t2 ≠ t1 := by
  cases l with
  | nil => simp at h1
  | cons ce rest =>
    simp only [List.headD_cons, List.tail_cons] at h1 h2
    rw [List.filterMap_cons, h1] at hnd
    have h2m : t2 ∈ rest.filterMap (fun ce => ce.tempDir) :=
      mem_tempNames_of_headD rest t2 h2
    intro hcontra
    exact (List.nodup_cons.mp hnd).1 (hcontra ▸ h2m)

theorem generationPhase_ok (h : Helper) (env : StartEnv) (tr0 : Trace)
    (copiesLeft : List CopyEnv) (d : String) (tr : Trace)
    (hres : generationPhase h env tr0 copiesLeft = (Except.ok d, tr)) :
    (copiesLeft.headD ⟨none, false⟩).tempDir = some d
    ∧ (copiesLeft.headD ⟨none, false⟩).copyOk = true
    ∧ tr.removedDirs = tr0.removedDirs
    ∧ tr.createdDirs = tr0.createdDirs ++ [d]
    ∧ tr.genRuns = tr0.genRuns ++
        [⟨createConfigCmd h env.opt, startBinds env.opt, startEnvVars env.opt⟩]
    ∧ tr.daemonRuns = tr0.daemonRuns := by
  unfold generationPhase at hres
  split at hres
  · simp at hres
  · split at hres
    · simp at hres
    · rename_i cd tr2 heq
      obtain ⟨ht, hc, htr⟩ := copyConfig_ok_inv _ _ _ heq
      subst htr
      split at hres
      · simp at hres
      · simp only [Prod.mk.injEq] at hres
        obtain ⟨h1, rfl⟩ := hres
        obtain rfl : cd = d := by simpa using h1
        exact ⟨ht, hc, by simp [Trace.app], by simp [Trace.app],
          by simp [Trace.app], by simp [Trace.app]⟩

theorem probePhase_not_existing (env : StartEnv)
    (hu : env.opt.useExistingConfig = false) :
    probePhase env = ("", false, env.copies, Trace.empty) := by
  simp [probePhase, hu]

theorem probePhase_skip_shape (env : StartEnv) (d1 : String)
    (hu : env.opt.useExistingConfig = true)
    (ht : (probeSlot env).tempDir = some d1)
    (hc : (probeSlot env).copyOk = true) :
    probePhase env = (d1, env.statOk, env.copies.tail, ⟨[d1], [], [], []⟩) := by
  simp only [probeSlot] at ht hc
  simp at ht hc
  simp [probePhase, hu, copyConfig, ht, hc]

theorem probePhase_fail_none (env : StartEnv)
    (hu : env.opt.useExistingConfig = true)
    (ht : (probeSlot env).tempDir = none) :
    probePhase env = ("", false, env.copies.tail, Trace.empty) := by
  simp only [probeSlot] at ht
  simp at ht
  simp [probePhase, hu, copyConfig, ht]

theorem probePhase_fail_copy (env : StartEnv) (d1 : String)
    (hu : env.opt.useExistingConfig = true)
    (ht : (probeSlot env).tempDir = some d1)
    (hc : (probeSlot env).copyOk = false) :
    probePhase env = ("", false, env.copies.tail, ⟨[d1], [d1], [], []⟩) := by
  simp only [probeSlot] at ht hc
  simp at ht hc
  simp [probePhase, hu, copyConfig, ht, hc]

theorem probePhase_inv (env : StartEnv) (cd : String) (skip : Bool)
    (left : List CopyEnv) (tr0 : Trace)
    (hp : probePhase env = (cd, skip, left, tr0)) :
    (left = env.copies ∨ left = env.copies.tail)
    ∧ (skip = true → (probeSlot env).tempDir = some cd ∧ tr0.removedDirs = [])
    ∧ (∀ x ∈ tr0.removedDirs,
        (probeSlot env).tempDir = some x ∧ left = env.copies.tail)
    ∧ tr0.genRuns = [] := by
  unfold probePhase at hp
  split at hp
  · split at hp
    · rename_i cd1 tr1 heq
      obtain ⟨ht, hc, htr⟩ := copyConfig_ok_inv _ _ _ heq
      subst htr
      simp only [Prod.mk.injEq] at hp
      obtain ⟨rfl, rfl, rfl, rfl⟩ := hp
      exact ⟨Or.inr rfl, fun _ => ⟨by simpa [probeSlot] using ht, rfl⟩,
        by simp, rfl⟩
    · rename_i s e tr1 heq
      obtain ⟨-, hrem, hgen, -⟩ := copyConfig_fail_inv _ _ _ _ heq
      simp only [Prod.mk.injEq] at hp
      obtain ⟨rfl, rfl, rfl, rfl⟩ := hp
      exact ⟨Or.inr rfl, by simp,
        fun x hx => ⟨by simpa [probeSlot] using hrem x hx, rfl⟩, hgen⟩
  · simp only [Prod.mk.injEq] at hp
    obtain ⟨rfl, rfl, rfl, rfl⟩ := hp
    exact ⟨Or.inl rfl, by simp, by simp [Trace.empty], rfl⟩

theorem resolveConfigPhase_eq (h : Helper) (env : StartEnv) (cd : String)
    (skip : Bool) (left : List CopyEnv) (tr0 : Trace)
    (hp : probePhase env = (cd, skip, left, tr0)) :
    resolveConfigPhase h env =
      if skip = true then (Except.ok cd, tr0)
      else generationPhase h env tr0 left := by
  unfold resolveConfigPhase
  rw [hp]

theorem resolveConfigPhase_ok_mem (h : Helper) (env : StartEnv) (d : String)
    (tr : Trace) (hres : resolveConfigPhase h env = (Except.ok d, tr)) :
    d ∈ tempNames env := by
  rcases hp : probePhase env with ⟨cd0, skip, left, tr0⟩
  rw [resolveConfigPhase_eq h env cd0 skip left tr0 hp] at hres
  obtain ⟨hleft, hskip, -, -⟩ := probePhase_inv env cd0 skip left tr0 hp
  by_cases hs : skip = true
  · rw [if_pos hs] at hres
    simp only [Prod.mk.injEq] at hres
    obtain ⟨h1, -⟩ := hres
    obtain rfl : cd0 = d := by simpa using h1
    obtain ⟨hslot, -⟩ := hskip hs
    simpa [tempNames] using
      mem_tempNames_of_headD env.copies cd0 (by simpa [probeSlot] using hslot)
  · rw [if_neg hs] at hres
    obtain ⟨ht, -, -, -, -, -⟩ := generationPhase_ok _ _ _ _ _ _ hres
    rcases hleft with rfl | rfl
    · simpa [tempNames] using mem_tempNames_of_headD env.copies d ht
    · simpa [tempNames] using mem_tempNames_of_tail_headD env.copies d ht

theorem resolveConfigPhase_ok_not_removed (h : Helper) (env : StartEnv)
    (d : String) (tr : Trace) (hnd : (tempNames env).Nodup)
    (hres : resolveConfigPhase h env = (Except.ok d, tr)) :
    d ∉ tr.removedDirs := by
  rcases hp : probePhase env with ⟨cd0, skip, left, tr0⟩
  rw [resolveConfigPhase_eq h env cd0 skip left tr0 hp] at hres
  obtain ⟨hleft, hskip, hrem, -⟩ := probePhase_inv env cd0 skip left tr0 hp
  by_cases hs : skip = true
  · rw [if_pos hs] at hres
    simp only [Prod.mk.injEq] at hres
    obtain ⟨-, rfl⟩ := hres
    obtain ⟨-, hrem0⟩ := hskip hs
    simp [hrem0]
  · rw [if_neg hs] at hres
    obtain ⟨ht, -, hrm, -, -, -⟩ := generationPhase_ok _ _ _ _ _ _ hres
    rw [hrm]
    intro hmem
    obtain ⟨hx, hl⟩ := hrem d hmem
    subst hl
    exact absurd rfl
      (tail_temp_ne_head_temp env.copies d d (by simpa [tempNames] using hnd)
        (by simpa [probeSlot] using hx) ht)

theorem launchPhase_preserves (h : Helper) (env : StartEnv) (configDir : String)
    (tr : Trace) :
    (launchPhase h env configDir tr).2.genRuns = tr.genRuns
    ∧ (launchPhase h env configDir tr).2.createdDirs = tr.createdDirs := by
  simp only [launchPhase]
  repeat' split
  all_goals simp [Trace.addRemoved]

theorem launchPhase_hostname_none (h : Helper) (env : StartEnv)
    (configDir : String) (tr : Trace) (hh : env.hostname = none) :
    launchPhase h env configDir tr =
      (Outcome.exit "" (some StartErr.configFilesFailed), tr.addRemoved configDir) := by
  simp [launchPhase, getOpenShiftConfigFiles, hh]

theorem launchPhase_removed_of_hostname_some (h : Helper) (env : StartEnv)
    (configDir : String) (tr : Trace) (hn : String)
    (hh : env.hostname = some hn) :
    (launchPhase h env configDir tr).2.removedDirs = tr.removedDirs := by
  simp only [launchPhase, getOpenShiftConfigFiles, hh]
  repeat' split
  all_goals simp

theorem launchPhase_outcome_shape (h : Helper) (env : StartEnv)
    (configDir : String) (tr : Trace) :
    (launchPhase h env configDir tr).1 = Outcome.exit configDir none
    ∨ (∃ e, (launchPhase h env configDir tr).1 = Outcome.exit "" (some e))
    ∨ (launchPhase h env configDir tr).1 = Outcome.hung := by
  simp only [launchPhase]
  repeat' split
  all_goals simp

theorem Start_eq_of_resolve_error (h : Helper) (env : StartEnv) (e : StartErr)
    (tr : Trace) (hres : resolveConfigPhase h env = (Except.error e, tr)) :
    Start h env = (Outcome.exit "" (some e), tr) := by
  unfold Start
  rw [hres]

theorem Start_eq_of_resolve_ok (h : Helper) (env : StartEnv) (d : String)
    (tr : Trace) (hres : resolveConfigPhase h env = (Except.ok d, tr)) :
    Start h env = launchPhase h env d tr := by
  unfold Start
  rw [hres]

theorem resolvedDir_some (h : Helper) (env : StartEnv) (d : String)
    (hd : resolvedDir h env = some d) :
    ∃ tr0, resolveConfigPhase h env = (Except.ok d, tr0) := by
  unfold resolvedDir at hd
  rcases hres : resolveConfigPhase h env with ⟨r, tr⟩
  rw [hres] at hd
  cases r with
  | error e => simp at hd
  | ok dd =>
    obtain rfl : dd = d := by simpa using hd
    exact ⟨tr, rfl⟩

theorem Start_genRuns (h : Helper) (env : StartEnv) :
    (Start h env).2.genRuns = (resolveConfigPhase h env).2.genRuns := by
  unfold Start
  rcases hres : resolveConfigPhase h env with ⟨r, tr⟩
  cases r with
  | error e => simp
  | ok dd => simpa using (launchPhase_preserves h env dd tr).1

theorem Start_createdDirs (h : Helper) (env : StartEnv) :
    (Start h env).2.createdDirs = (resolveConfigPhase h env).2.createdDirs := by
  unfold Start
  rcases hres : resolveConfigPhase h env with ⟨r, tr⟩
  cases r with
  | error e => simp
  | ok dd => simpa using (launchPhase_preserves h env dd tr).2

theorem generationPhase_genRuns (h : Helper) (env : StartEnv) (tr0 : Trace)
    (copiesLeft : List CopyEnv) :
    (generationPhase h env tr0 copiesLeft).2.genRuns =
      tr0.genRuns ++
        [⟨createConfigCmd h env.opt, startBinds env.opt, startEnvVars env.opt⟩] := by
  simp only [generationPhase]
  split
  · simp
  · split
    · rename_i s e tr2 heq
      obtain ⟨-, -, hgen, -⟩ := copyConfig_fail_inv _ _ _ _ heq
      simp [Trace.app, hgen]
    · rename_i cd tr2 heq
      obtain ⟨-, -, htr⟩ := copyConfig_ok_inv _ _ _ heq
      subst htr
      split
      · simp [Trace.app, Trace.addRemoved]
      · simp [Trace.app]

theorem generationPhase_created_prefix (h : Helper) (env : StartEnv)
    (tr0 : Trace) (copiesLeft : List CopyEnv) :
    ∀ x ∈ tr0.createdDirs,
      x ∈ (generationPhase h env tr0 copiesLeft).2.createdDirs := by
  intro x hx
  simp only [generationPhase]
  split
  · simpa using hx
  · split
    · rename_i s e tr2 heq
      simp [Trace.app, hx]
    · rename_i cd tr2 heq
      split
      · simp [Trace.app, Trace.addRemoved, hx]
      · simp [Trace.app, hx]

theorem generationPhase_removed_sub (h : Helper) (env : StartEnv)
    (tr0 : Trace) (copiesLeft : List CopyEnv) :
    ∀ x ∈ (generationPhase h env tr0 copiesLeft).2.removedDirs,
      x ∈ tr0.removedDirs
      ∨ (copiesLeft.headD ⟨none, false⟩).tempDir = some x := by
  intro x hx
  simp only [generationPhase] at hx
  split at hx
  · simp at hx
    exact Or.inl hx
  · split at hx
    · rename_i s e tr2 heq
      obtain ⟨-, hrem, -, -⟩ := copyConfig_fail_inv _ _ _ _ heq
      simp [Trace.app] at hx
      rcases hx with hx | hx
      · exact Or.inl hx
      · exact Or.inr (hrem x hx)
    · rename_i cd tr2 heq
      obtain ⟨ht, -, htr⟩ := copyConfig_ok_inv _ _ _ heq
      subst htr
      split at hx
      · simp [Trace.app, Trace.addRemoved] at hx
        rcases hx with hx | rfl
        · exact Or.inl hx
        · exact Or.inr ht
      · simp [Trace.app] at hx
        exact Or.inl hx

theorem generationPhase_outcome (h : Helper) (env : StartEnv) (tr0 : Trace)
    (copiesLeft : List CopyEnv) :
    (∃ e, (generationPhase h env tr0 copiesLeft).1 = Except.error e)
    ∨ (∃ d2, (generationPhase h env tr0 copiesLeft).1 = Except.ok d2
        ∧ (copiesLeft.headD ⟨none, false⟩).tempDir = some d2) := by
  simp only [generationPhase]
  split
  · exact Or.inl ⟨_, rfl⟩
  · split
    · exact Or.inl ⟨_, rfl⟩
    · rename_i cd tr2 heq
      obtain ⟨ht, -, -⟩ := copyConfig_ok_inv _ _ _ heq
      split
      · exact Or.inl ⟨_, rfl⟩
      · exact Or.inr ⟨cd, rfl, ht⟩

theorem generationPhase_update_fail (h : Helper) (env : StartEnv) (tr0 : Trace)
    (copiesLeft : List CopyEnv) (d2 : String) (e : UpdateErr)
    (hcc : env.createConfigOk = true)
    (ht : (copiesLeft.headD ⟨none, false⟩).tempDir = some d2)
    (hco : (copiesLeft.headD ⟨none, false⟩).copyOk = true)
    (hup : (updateConfig h.routingSuffix env.opt.serverIP env.update).1 = some e) :
    (generationPhase h env tr0 copiesLeft).1 =
        Except.error (StartErr.updateConfigFailed e)
    ∧ d2 ∈ (generationPhase h env tr0 copiesLeft).2.removedDirs := by
  rcases hu2 : updateConfig h.routingSuffix env.opt.serverIP env.update with ⟨oe, fc⟩
  rw [hu2] at hup
  simp only at hup
  subst hup
  simp at ht hco
  simp [generationPhase, hcc, copyConfig, ht, hco, hu2, Trace.app, Trace.addRemoved]

theorem launchPhase_removed_shape (h : Helper) (env : StartEnv)
    (configDir : String) (tr : Trace) :
    (launchPhase h env configDir tr).2.removedDirs = tr.removedDirs
    ∨ (launchPhase h env configDir tr).2.removedDirs =
        tr.removedDirs ++ [configDir] := by
  simp only [launchPhase]
  repeat' split
  all_goals simp [Trace.addRemoved]

theorem resolve_eq_generation_of_noSkip (h : Helper) (env : StartEnv)
    (hns : noSkip env = true) :
    ∃ tr0, resolveConfigPhase h env =
        generationPhase h env tr0
          (if env.opt.useExistingConfig then env.copies.tail else env.copies)
      ∧ tr0.genRuns = [] := by
  by_cases hu : env.opt.useExistingConfig = true
  · rcases hslot : (probeSlot env).tempDir with _ | t1
    · refine ⟨Trace.empty, ?_, rfl⟩
      rw [resolveConfigPhase_eq h env "" false env.copies.tail Trace.empty
        (probePhase_fail_none env hu hslot), if_neg (by simp), if_pos hu]
    · by_cases hcp : (probeSlot env).copyOk = true
      · have hstat : env.statOk = false := by
          simp [noSkip, hu, hslot, hcp] at hns
          exact hns
        refine ⟨⟨[t1], [], [], []⟩, ?_, rfl⟩
        rw [resolveConfigPhase_eq h env t1 env.statOk env.copies.tail _
          (probePhase_skip_shape env t1 hu hslot hcp), if_neg (by simp [hstat]),
          if_pos hu]
      · have hcp' : (probeSlot env).copyOk = false := by simpa using hcp
        refine ⟨⟨[t1], [t1], [], []⟩, ?_, rfl⟩
        rw [resolveConfigPhase_eq h env "" false env.copies.tail _
          (probePhase_fail_copy env t1 hu hslot hcp'), if_neg (by simp),
          if_pos hu]
  · have hu' : env.opt.useExistingConfig = false := by simpa using hu
    refine ⟨Trace.empty, ?_, rfl⟩
    rw [resolveConfigPhase_eq h env "" false env.copies Trace.empty
      (probePhase_not_existing env hu'), if_neg (by simp), if_neg (by simp [hu'])]

/-! ## Claim C9 theorem -/

/-- C9: provided the temp-dir oracle never hands out an empty path (the
`ioutil.TempDir` contract), every exit of `Start` carries either a
non-empty staged path with nil error, or an empty path with a non-nil
error — never both a usable path and an error, and never success with an
empty path. -/
theorem Start_exit_exclusive (h : Helper) (env : StartEnv)
    (hne : "" ∉ tempNames env)
    (hexit : (Start h env).1.isExit = true) :
    ((Start h env).1.err = none → (Start h env).1.path ≠ "")
    ∧ ((Start h env).1.err ≠ none → (Start h env).1.path = "") := by
  rcases hres : resolveConfigPhase h env with ⟨r, tr⟩
  cases r with
  | error e =>
    rw [Start_eq_of_resolve_error h env e tr hres]
    simp [Outcome.err, Outcome.path]
  | ok dd =>
    have hmem := resolveConfigPhase_ok_mem h env dd tr hres
    have hdne : dd ≠ "" := fun hc => hne (hc ▸ hmem)
    rw [Start_eq_of_resolve_ok h env dd tr hres] at hexit ⊢
    rcases launchPhase_outcome_shape h env dd tr with hsh | ⟨e, hsh⟩ | hsh
    · rw [hsh]
      simp [Outcome.err, Outcome.path, hdne]
    · rw [hsh]
      simp [Outcome.err, Outcome.path]
    · rw [hsh] at hexit
      simp [Outcome.isExit] at hexit

/-! ## Claim C8 theorem -/

/-- C8: after a successful config resolution and daemon launch, `Start`
classifies post-launch failures distinctly: a state-query error yields
the state-query-failed error, a not-running container yields
FailedToStart, and dial-wait exhaustion yields TimedOutWaitingForStart,
which differs from FailedToStart. -/
theorem Start_post_launch_error_kinds (h : Helper) (env : StartEnv)
    (d hn : String) (tr0 : Trace)
    (hres : resolveConfigPhase h env = (Except.ok d, tr0))
    (hhost : env.hostname = some hn)
    (hdaemon : env.daemonStartOk = true) :
    (env.containerState = none →
      (Start h env).1 = Outcome.exit "" (some StartErr.stateQueryFailed))
    ∧ (env.containerState = some false →
      (Start h env).1 =
        Outcome.exit "" (some (StartErr.failedToStart h.containerName)))
    ∧ (env.containerState = some true → env.dialOk = false →
      (Start h env).1 =
        Outcome.exit "" (some (StartErr.timedOutWaitingForStart h.containerName)))
    ∧ StartErr.failedToStart h.containerName ≠
        StartErr.timedOutWaitingForStart h.containerName := by
  rw [Start_eq_of_resolve_ok h env d tr0 hres]
  refine ⟨?_, ?_, ?_, by simp⟩
  · intro hcs
    simp [launchPhase, getOpenShiftConfigFiles, hhost, hdaemon, hcs]
  · intro hcs
    simp [launchPhase, getOpenShiftConfigFiles, hhost, hdaemon, hcs]
  · intro hcs hdial
    simp [launchPhase, getOpenShiftConfigFiles, hhost, hdaemon, hcs, hdial]

/-! ## Concrete environments for witnesses and counterexamples -/

/-- C9 witness: the exit-exclusivity theorem at the all-success
environment. -/
theorem Start_exit_exclusive_witness :
    ("" ∉ tempNames envSuccess)
    ∧ (Start hW envSuccess).1.isExit = true
    ∧ (((Start hW envSuccess).1.err = none → (Start hW envSuccess).1.path ≠ "")
      ∧ ((Start hW envSuccess).1.err ≠ none →
          (Start hW envSuccess).1.path = "")) :=
  ⟨by decide, by decide, Start_exit_exclusive hW envSuccess (by decide) (by decide)⟩

/-- C8 witness: the error-kind theorem at the environment whose container
is reported not running. -/
theorem Start_post_launch_error_kinds_witness :
    resolveConfigPhase hW envFailedToStart =
      (Except.ok "/tmp/oc1", (resolveConfigPhase hW envFailedToStart).2)
    ∧ envFailedToStart.hostname = some "node1"
    ∧ envFailedToStart.daemonStartOk = true
    ∧ ((envFailedToStart.containerState = none →
        (Start hW envFailedToStart).1 =
          Outcome.exit "" (some StartErr.stateQueryFailed))
      ∧ (envFailedToStart.containerState = some false →
        (Start hW envFailedToStart).1 =
          Outcome.exit "" (some (StartErr.failedToStart hW.containerName)))
      ∧ (envFailedToStart.containerState = some true →
          envFailedToStart.dialOk = false →
        (Start hW envFailedToStart).1 =
          Outcome.exit "" (some (StartErr.timedOutWaitingForStart hW.containerName)))
      ∧ StartErr.failedToStart hW.containerName ≠
          StartErr.timedOutWaitingForStart hW.containerName) :=
  ⟨by decide, by decide, by decide,
   Start_post_launch_error_kinds hW envFailedToStart "/tmp/oc1" "node1"
     ((resolveConfigPhase hW envFailedToStart).2) (by decide) (by decide) (by decide)⟩

/-! ## Claim C6 theorem -/

/-- C6: with `UseExistingConfig` set, when the probe's staging succeeds
and the staged copy contains the master config file, `Start` never runs
the configuration-generation command; when the staging or the presence
check fails, the failure is not fatal and `Start` proceeds to run the
generation command (exactly once). -/
theorem Start_generation_skip (h : Helper) (env : StartEnv) (d : String)
    (hu : env.opt.useExistingConfig = true) :
    ((probeSlot env).tempDir = some d → (probeSlot env).copyOk = true →
      env.statOk = true → (Start h env).2.genRuns = [])
    ∧ (noSkip env = true →
      (Start h env).2.genRuns =
        [⟨createConfigCmd h env.opt, startBinds env.opt, startEnvVars env.opt⟩]) := by
  constructor
  · intro ht hc hstat
    rw [Start_genRuns,
      resolveConfigPhase_eq h env d env.statOk env.copies.tail ⟨[d], [], [], []⟩
        (probePhase_skip_shape env d hu ht hc), if_pos hstat]
  · intro hns
    obtain ⟨tr0, hrEq, hg0⟩ := resolve_eq_generation_of_noSkip h env hns
    rw [Start_genRuns, hrEq, generationPhase_genRuns, hg0]
    rfl

/-- C6 witness: the generation-skip theorem at `envExisting`. -/
theorem Start_generation_skip_witness :
    envExisting.opt.useExistingConfig = true
    ∧ (((probeSlot envExisting).tempDir = some "/tmp/oc1" →
        (probeSlot envExisting).copyOk = true → envExisting.statOk = true →
        (Start hW envExisting).2.genRuns = [])
      ∧ (noSkip envExisting = true →
        (Start hW envExisting).2.genRuns =
          [⟨createConfigCmd hW envExisting.opt, startBinds envExisting.opt,
            startEnvVars envExisting.opt⟩])) :=
  ⟨by decide, Start_generation_skip hW envExisting "/tmp/oc1" (by decide)⟩

/-! ## Claim C10 theorem -/

/-- C10: with `UseExistingConfig` set, when the probe's staging succeeds
with directory `d1` but the staged copy lacks the master config file,
`Start` proceeds to generation (overwriting its `configDir` with a second
staged directory): `d1` is created but never removed on any path of the
attempt, and no exit returns `d1`. -/
theorem Start_abandons_probe_dir (h : Helper) (env : StartEnv) (d1 : String)
    (hu : env.opt.useExistingConfig = true)
    (ht : (probeSlot env).tempDir = some d1)
    (hc : (probeSlot env).copyOk = true)
    (hs : env.statOk = false)
    (hnd : (tempNames env).Nodup)
    (hne : "" ∉ tempNames env) :
    d1 ∈ (Start h env).2.createdDirs
    ∧ d1 ∉ (Start h env).2.removedDirs
    ∧ (Start h env).2.genRuns ≠ []
    ∧ (Start h env).1.path ≠ d1 := by
  have hmem1 : d1 ∈ tempNames env := by
    simpa [tempNames] using
      mem_tempNames_of_headD env.copies d1 (by simpa [probeSlot] using ht)
  have hd1ne : d1 ≠ "" := fun hcontra => hne (hcontra ▸ hmem1)
  have hp : probePhase env = (d1, env.statOk, env.copies.tail, ⟨[d1], [], [], []⟩) :=
    probePhase_skip_shape env d1 hu ht hc
  have hrEq : resolveConfigPhase h env =
      generationPhase h env ⟨[d1], [], [], []⟩ env.copies.tail := by
    rw [resolveConfigPhase_eq h env d1 env.statOk env.copies.tail _ hp,
      if_neg (by simp [hs])]
  have htailne : ∀ x, (env.copies.tail.headD ⟨none, false⟩).tempDir = some x →
      x ≠ d1 := fun x hx =>
    tail_temp_ne_head_temp env.copies d1 x (by simpa [tempNames] using hnd)
      (by simpa [probeSlot] using ht) hx
  have hrem : ∀ x ∈ (resolveConfigPhase h env).2.removedDirs, x ≠ d1 := by
    rw [hrEq]
    intro x hx
    rcases generationPhase_removed_sub h env _ _ x hx with hx0 | hx0
    · simp at hx0
    · exact htailne x hx0
  have hcreate : d1 ∈ (resolveConfigPhase h env).2.createdDirs := by
    rw [hrEq]
    exact generationPhase_created_prefix h env _ _ d1 (by simp)
  have hgenNe : (resolveConfigPhase h env).2.genRuns ≠ [] := by
    rw [hrEq, generationPhase_genRuns]
    simp
  refine ⟨?_, ?_, ?_, ?_⟩
  · rw [Start_createdDirs]
    exact hcreate
  · rcases hres : resolveConfigPhase h env with ⟨r, tr⟩
    rw [hres] at hrem
    cases r with
    | error e =>
      rw [Start_eq_of_resolve_error h env e tr hres]
      exact fun hcontra => hrem d1 hcontra rfl
    | ok dd =>
      rw [Start_eq_of_resolve_ok h env dd tr hres]
      have hdd := (generationPhase_ok h env _ _ dd tr (hrEq.symm.trans hres)).1
      have hddne : dd ≠ d1 := htailne dd hdd
      rcases launchPhase_removed_shape h env dd tr with hsh | hsh
      · rw [hsh]
        exact fun hcontra => hrem d1 hcontra rfl
      · rw [hsh]
        intro hcontra
        rcases List.mem_append.mp hcontra with hcontra | hcontra
        · exact hrem d1 hcontra rfl
        · have hd1dd : d1 = dd := by simpa using hcontra
          exact hddne hd1dd.symm
  · rw [Start_genRuns]
    exact hgenNe
  · rcases hres : resolveConfigPhase h env with ⟨r, tr⟩
    cases r with
    | error e =>
      rw [Start_eq_of_resolve_error h env e tr hres]
      simp only [Outcome.path]
      exact Ne.symm hd1ne
    | ok dd =>
      rw [Start_eq_of_resolve_ok h env dd tr hres]
      have hdd := (generationPhase_ok h env _ _ dd tr (hrEq.symm.trans hres)).1
      have hddne : dd ≠ d1 := htailne dd hdd
      rcases launchPhase_outcome_shape h env dd tr with hsh | ⟨e, hsh⟩ | hsh
      · rw [hsh]
        simpa [Outcome.path] using hddne
      · rw [hsh]
        simp only [Outcome.path]
        exact Ne.symm hd1ne
      · rw [hsh]
        simp only [Outcome.path]
        exact Ne.symm hd1ne

/-- C10 witness: the abandonment theorem at `envAbandon`. -/
theorem Start_abandons_probe_dir_witness :
    (envAbandon.opt.useExistingConfig = true
      ∧ (probeSlot envAbandon).tempDir = some "/tmp/oc1"
      ∧ (probeSlot envAbandon).copyOk = true
      ∧ envAbandon.statOk = false
      ∧ (tempNames envAbandon).Nodup
      ∧ "" ∉ tempNames envAbandon)
    ∧ ("/tmp/oc1" ∈ (Start hW envAbandon).2.createdDirs
      ∧ "/tmp/oc1" ∉ (Start hW envAbandon).2.removedDirs
      ∧ (Start hW envAbandon).2.genRuns ≠ []
      ∧ (Start hW envAbandon).1.path ≠ "/tmp/oc1") :=
  ⟨⟨by decide, by decide, by decide, by decide, by decide, by decide⟩,
   Start_abandons_probe_dir hW envAbandon "/tmp/oc1" (by decide) (by decide)
     (by decide) (by decide) (by decide) (by decide)⟩

/-! ## Claim C1 theorems -/

/-- C1 (counterexample to the claim as stated): an attempt in which a
staged directory was created, the daemon launched, and the state query
reported the container not running — `Start` returns FailedToStart but
the staged directory from this attempt has NOT been removed. -/
theorem Start_failedToStart_keeps_dir_counterexample :
    (Start hW envFailedToStart).1 =
      Outcome.exit "" (some (StartErr.failedToStart "origin"))
    ∧ "/tmp/oc1" ∈ (Start hW envFailedToStart).2.createdDirs
    ∧ "/tmp/oc1" ∉ (Start hW envFailedToStart).2.removedDirs := by decide

/-- C1 (amended): the staged configuration directory is removed exactly
on the two failure exits inside config resolution that follow its
staging — the routing-subdomain patch (`updateConfig`) failure and the
config-file-paths failure; every later failure exit (daemon start, state
query, FailedToStart, dial timeout, readiness client and poll failures)
leaves it in place, as does the successful exit. -/
theorem Start_cleanup_policy (h : Helper) (env : StartEnv) (d d2 : String)
    (e : UpdateErr) (hnd : (tempNames env).Nodup) :
    (noSkip env = true → env.createConfigOk = true →
      (copy2Slot env).tempDir = some d2 → (copy2Slot env).copyOk = true →
      (updateConfig h.routingSuffix env.opt.serverIP env.update).1 = some e →
      (Start h env).1 = Outcome.exit "" (some (StartErr.updateConfigFailed e))
      ∧ d2 ∈ (Start h env).2.removedDirs)
    ∧ (resolvedDir h env = some d → env.hostname = none →
      (Start h env).1 = Outcome.exit "" (some StartErr.configFilesFailed)
      ∧ d ∈ (Start h env).2.removedDirs)
    ∧ (resolvedDir h env = some d → env.hostname ≠ none →
      d ∉ (Start h env).2.removedDirs)
    ∧ (resolvedDir h env = some d →
      (Start h env).1.err = some (StartErr.failedToStart h.containerName) →
      d ∉ (Start h env).2.removedDirs)
    ∧ (resolvedDir h env = some d → (Start h env).1 = Outcome.exit d none →
      d ∉ (Start h env).2.removedDirs) := by
  refine ⟨?_, ?_, ?_, ?_, ?_⟩
  · intro hns hcc ht2 hco2 hup
    obtain ⟨tr0, hrEq, -⟩ := resolve_eq_generation_of_noSkip h env hns
    have hGF := generationPhase_update_fail h env tr0 _ d2 e hcc
      (by simpa [copy2Slot] using ht2) (by simpa [copy2Slot] using hco2) hup
    rcases hres : resolveConfigPhase h env with ⟨r, tr⟩
    have hpair : (r, tr) = generationPhase h env tr0
        (if env.opt.useExistingConfig then env.copies.tail else env.copies) :=
      hres.symm.trans hrEq
    have hr1 : r = Except.error (StartErr.updateConfigFailed e) := by
      rw [← hpair] at hGF
      exact hGF.1
    have hr2 : d2 ∈ tr.removedDirs := by
      rw [← hpair] at hGF
      exact hGF.2
    subst hr1
    rw [Start_eq_of_resolve_error h env _ tr hres]
    exact ⟨rfl, hr2⟩
  · intro hdres hh
    obtain ⟨tr0, hres⟩ := resolvedDir_some h env d hdres
    rw [Start_eq_of_resolve_ok h env d tr0 hres,
      launchPhase_hostname_none h env d tr0 hh]
    exact ⟨rfl, by simp [Trace.addRemoved]⟩
  · intro hdres hh
    obtain ⟨tr0, hres⟩ := resolvedDir_some h env d hdres
    rcases hhn : env.hostname with _ | hn
    · exact absurd hhn hh
    · rw [Start_eq_of_resolve_ok h env d tr0 hres,
        launchPhase_removed_of_hostname_some h env d tr0 hn hhn]
      exact resolveConfigPhase_ok_not_removed h env d tr0 hnd hres
  · intro hdres herr
    obtain ⟨tr0, hres⟩ := resolvedDir_some h env d hdres
    rcases hhn : env.hostname with _ | hn
    · rw [Start_eq_of_resolve_ok h env d tr0 hres,
        launchPhase_hostname_none h env d tr0 hhn] at herr
      simp [Outcome.err] at herr
    · rw [Start_eq_of_resolve_ok h env d tr0 hres,
        launchPhase_removed_of_hostname_some h env d tr0 hn hhn]
      exact resolveConfigPhase_ok_not_removed h env d tr0 hnd hres
  · intro hdres hexit
    obtain ⟨tr0, hres⟩ := resolvedDir_some h env d hdres
    rcases hhn : env.hostname with _ | hn
    · rw [Start_eq_of_resolve_ok h env d tr0 hres,
        launchPhase_hostname_none h env d tr0 hhn] at hexit
      simp at hexit
    · rw [Start_eq_of_resolve_ok h env d tr0 hres,
        launchPhase_removed_of_hostname_some h env d tr0 hn hhn]
      exact resolveConfigPhase_ok_not_removed h env d tr0 hnd hres

/-- C1 witness: the amended cleanup-policy theorem at the FailedToStart
environment (the staged directory `/tmp/oc1` is resolved, the container
is reported not running, and the directory is not removed). -/
theorem Start_cleanup_policy_witness :
    (tempNames envFailedToStart).Nodup
    ∧ ((noSkip envFailedToStart = true → envFailedToStart.createConfigOk = true →
        (copy2Slot envFailedToStart).tempDir = some "/tmp/oc1" →
        (copy2Slot envFailedToStart).copyOk = true →
        (updateConfig hW.routingSuffix envFailedToStart.opt.serverIP
            envFailedToStart.update).1 = some UpdateErr.readFailed →
        (Start hW envFailedToStart).1 =
          Outcome.exit "" (some (StartErr.updateConfigFailed UpdateErr.readFailed))
        ∧ "/tmp/oc1" ∈ (Start hW envFailedToStart).2.removedDirs)
      ∧ (resolvedDir hW envFailedToStart = some "/tmp/oc1" →
          envFailedToStart.hostname = none →
        (Start hW envFailedToStart).1 =
          Outcome.exit "" (some StartErr.configFilesFailed)
        ∧ "/tmp/oc1" ∈ (Start hW envFailedToStart).2.removedDirs)
      ∧ (resolvedDir hW envFailedToStart = some "/tmp/oc1" →
          envFailedToStart.hostname ≠ none →
        "/tmp/oc1" ∉ (Start hW envFailedToStart).2.removedDirs)
      ∧ (resolvedDir hW envFailedToStart = some "/tmp/oc1" →
        (Start hW envFailedToStart).1.err =
          some (StartErr.failedToStart hW.containerName) →
        "/tmp/oc1" ∉ (Start hW envFailedToStart).2.removedDirs)
      ∧ (resolvedDir hW envFailedToStart = some "/tmp/oc1" →
        (Start hW envFailedToStart).1 = Outcome.exit "/tmp/oc1" none →
        "/tmp/oc1" ∉ (Start hW envFailedToStart).2.removedDirs)) :=
  ⟨by decide,
   Start_cleanup_policy hW envFailedToStart "/tmp/oc1" "/tmp/oc1"
     UpdateErr.readFailed (by decide)⟩

end OriginBootstrap
